import Mathlib

/-
  Verification development for the mash job-orchestration services.

  The Python sources are shallowly embedded: dictionaries become
  association lists from string keys to JSON-like values, object state
  becomes explicit record passing, raised exceptions become Except
  results, and side effects (broker publishes, log lines, file writes,
  message acknowledgments) become fields of an explicit state record.
-/

namespace Mash

/-- JSON-like values, the payloads of job documents and messages.
json.loads produces such values; json.dumps with sort_keys=True renders
them with deterministic key order, so a dump/load round trip preserves
the value. Files on disk are therefore modelled as holding the parsed
value itself. -/
inductive Val where
  | vStr (s : String)
  | vNum (n : Int)
  | vBool (b : Bool)
  | vNull
  | vList (xs : List Val)
  | vObj (fields : List (String × Val))

/-- Python str() of a value, as used by str.format when building the
snapshot path. The services only ever format string ids; composite
values get a placeholder rendering. -/
def strOfVal : Val → String
  | .vStr s => s
  | .vNum n => toString n
  | .vBool b => if b then "True" else "False"
  | .vNull => "None"
  | .vList _ => "<list>"
  | .vObj _ => "<dict>"

/-- Lookup in a Python dict modelled as an association list. -/
def lookupKey {α : Type _} : List (String × α) → String → Option α
  | [], _ => none
  | (k', v) :: rest, k => if k' = k then some v else lookupKey rest k

/-- Python dict assignment d[k] = v: replace the binding in place when
the key exists, append it otherwise. -/
def setKey {α : Type _} : List (String × α) → String → α → List (String × α)
  | [], k, v => [(k, v)]
  | (k', v') :: rest, k, v =>
      if k' = k then (k, v) :: rest else (k', v') :: setKey rest k v

/-- Python del d[k]: drop every binding of the key. -/
def removeKey {α : Type _} : List (String × α) → String → List (String × α)
  | [], _ => []
  | (k', v) :: rest, k =>
      if k' = k then removeKey rest k else (k', v) :: removeKey rest k

/-- A job configuration document: a Python dict of JSON values. -/
abbrev JobConfig := List (String × Val)

/-- The on-disk job directory of a service: file path to parsed snapshot
content. -/
abbrev Snapshots := List (String × JobConfig)

/-- Status constants of mash.services.status_levels. The module itself
is not under src; the values follow the spec status enum and the result
documents such as status success. -/
def SUCCESS : String := "success"

/-- Failed status constant, see SUCCESS. -/
def FAILED : String := "failed"

/-- Exception status constant, see SUCCESS. -/
def EXCEPTION : String := "exception"

/-- Initial status constant UNKOWN of status_levels, see SUCCESS. -/
def UNKOWN : String := "unkown"

/-- Python truthiness of an optional string: None and the empty string
are falsy, every other string is truthy. -/
def pyTruthy : Option String → Bool
  | none => false
  | some s => s != ""

/-- MashService._should_notify of mash_service.py. The first argument is
self.service_exchange, the exchange of the current service. -/
def should_notify (service_exchange : String) (notification_email : Option String)
    (notification_type utctime status last_service : String) : Bool :=
  if pyTruthy notification_email = false then false
  else if status ≠ SUCCESS then true
  else if notification_type = "periodic" ∧ utctime ≠ "always" then true
  else if last_service = service_exchange ∧ utctime ≠ "always" then true
  else false

/-- os.remove: delete the file, raising FileNotFoundError when the path
does not exist. -/
def os_remove {α : Type _} (fs : List (String × α)) (path : String) :
    Except String (List (String × α)) :=
  if (lookupKey fs path).isSome then Except.ok (removeKey fs path)
  else Except.error "FileNotFoundError"

/-- MashService.remove_file of mash_service.py, identical to
ReplicationService._remove_job_config: os.remove wrapped in a
try/except that swallows every failure. -/
def remove_file {α : Type _} (fs : List (String × α)) (path : String) :
    List (String × α) :=
  match os_remove fs path with
  | Except.ok fs' => fs'
  | Except.error _ => fs

/-- The snapshot path built by persist_job_config for a given job
directory and job id. -/
def job_file_path (dir id : String) : String :=
  dir ++ "job-" ++ id ++ ".json"

/-- BaseService.persist_job_config of base_service.py (MashService has
the same logic): set the job_file key on the callers config dict, write
the mutated dict to that path (json.dumps with sorted keys; file content
is modelled as the dict itself), and return the path. Raises KeyError
when the config has no id key. -/
def persist_job_config (job_directory : String) (fs : Snapshots)
    (config : JobConfig) : Except String (Snapshots × JobConfig × String) :=
  match lookupKey config "id" with
  | none => Except.error "KeyError"
  | some idv =>
      let path := job_directory ++ "job-" ++ strOfVal idv ++ ".json"
      let config' := setKey config "job_file" (Val.vStr path)
      Except.ok (setKey fs path config', config', path)

/-- BaseService.restart_jobs of base_service.py: iterate over the files
of the job directory, parse each one and feed it to the creation
callback. The callback threads a state of type sigma. -/
def restart_jobs {σ : Type _} (callback : JobConfig → σ → σ) :
    Snapshots → σ → σ
  | [], st => st
  | (_, cfg) :: rest, st => restart_jobs callback rest (callback cfg st)

section AssocLemmas

variable {α : Type _}

theorem lookupKey_setKey_self (l : List (String × α)) (k : String) (v : α) :
    lookupKey (setKey l k v) k = some v := by
  induction l with
  | nil => simp [setKey, lookupKey]
  | cons hd tl ih =>
      by_cases h : hd.1 = k
      · simp [setKey, lookupKey, h]
      · simpa [setKey, lookupKey, h] using ih

theorem lookupKey_setKey_ne (l : List (String × α)) (k k' : String) (v : α)
    (h : k' ≠ k) : lookupKey (setKey l k v) k' = lookupKey l k' := by
  induction l with
  | nil => simp [setKey, lookupKey, Ne.symm h]
  | cons hd tl ih =>
      by_cases hk : hd.1 = k
      · simp [setKey, lookupKey, hk, Ne.symm h]
      · by_cases hk' : hd.1 = k'
        · simp [setKey, lookupKey, hk, hk', h]
        · simpa [setKey, lookupKey, hk, hk'] using ih

theorem lookupKey_removeKey_self (l : List (String × α)) (k : String) :
    lookupKey (removeKey l k) k = none := by
  induction l with
  | nil => simp [removeKey, lookupKey]
  | cons hd tl ih =>
      by_cases h : hd.1 = k
      · simpa [removeKey, h] using ih
      · simpa [removeKey, lookupKey, h] using ih

theorem removeKey_of_lookup_none (l : List (String × α)) (k : String)
    (h : lookupKey l k = none) : removeKey l k = l := by
  induction l with
  | nil => simp [removeKey]
  | cons hd tl ih =>
      by_cases hk : hd.1 = k
      · simp [lookupKey, hk] at h
      · simp [lookupKey, hk] at h
        simp [removeKey, hk, ih h]

theorem remove_file_eq_removeKey (fs : List (String × α)) (p : String) :
    remove_file fs p = removeKey fs p := by
  by_cases h : (lookupKey fs p).isSome
  · simp [remove_file, os_remove, h]
  · simp only [Option.isSome] at h
    have hnone : lookupKey fs p = none := by
      cases hl : lookupKey fs p with
      | none => rfl
      | some v => simp [hl] at h
    simp [remove_file, os_remove, hnone, removeKey_of_lookup_none fs p hnone]

end AssocLemmas

/-- DeprecationJob of deprecation/job.py: the per-job record. The
log_callback attribute only matters for whether it is set, so it is
modelled as a flag. -/
structure DeprecationJob where
  iteration_count : Nat
  id : String
  job_file : Option String
  log_callback : Bool
  provider : String
  status : String
  utctime : String

/-- DeprecationJob.__init__: iteration_count starts at 0, status starts
at UNKOWN, no log callback. -/
def DeprecationJob.init (id provider utctime : String)
    (job_file : Option String) : DeprecationJob :=
  { iteration_count := 0, id := id, job_file := job_file,
    log_callback := false, provider := provider, status := UNKOWN,
    utctime := utctime }

/-- DeprecationJob.set_log_callback. -/
def set_log_callback (j : DeprecationJob) : DeprecationJob :=
  { j with log_callback := true }

/-- DeprecationJob.get_metadata. -/
def get_metadata (j : DeprecationJob) : List (String × String) :=
  [("job_id", j.id)]

/-- A provider _deprecate override: it mutates the job object and may
raise, in which case the mutations made so far survive on the object. -/
abbrev DeprecateImpl := DeprecationJob → DeprecationJob × Option String

/-- DeprecationJob._deprecate of the base class: raises
NotImplementedError and touches nothing. -/
def base_deprecate : DeprecateImpl :=
  fun j => (j, some "NotImplementedError")

/-- AzureDeprecationJob._deprecate of deprecation/azure_job.py: there is
no deprecation in Azure, so it just sets status to SUCCESS. -/
def azure_deprecate : DeprecateImpl :=
  fun j => ({ j with status := SUCCESS }, none)

/-- DeprecationJob.deprecate_image, the execution entry point: increment
iteration_count by one, then run the provider _deprecate override. -/
def deprecate_image (impl : DeprecateImpl) (j : DeprecationJob) :
    DeprecationJob × Option String :=
  impl { j with iteration_count := j.iteration_count + 1 }

/-- Run n execution passes of an Azure deprecation job, keeping the job
object of each completed pass. -/
def azure_run_passes : Nat → DeprecationJob → DeprecationJob
  | 0, j => j
  | n + 1, j => azure_run_passes n (deprecate_image azure_deprecate j).1

/-- Log levels of the service logger. -/
inductive LogLevel where
  | info
  | warning
  | error
deriving DecidableEq

/-- Replication job object, the data of EC2ReplicationJob instances as
used by replication/service.py. The listener message handle is a number
standing for the inbound amqpstorm message; credentials hold the decoded
payload once a credentials response arrived. -/
structure RepJob where
  id : String
  utctime : String
  status : String
  iteration_count : Nat
  job_file : Option String
  credentials : Option Val
  listener_msg : Option Nat
  cloud_image_name : String
  source_regions_result : Val

/-- ReplicationService state: the in-memory job table, the apscheduler
entry ids, the on-disk snapshot directory, the listener queue bindings
by job id, the published result messages as (exchange, job id, payload),
the published invalid-config notices carrying the original body, the
acknowledged message handles, and the log lines. -/
structure RepState where
  job_directory : String
  jobs : List (String × RepJob)
  scheduler : List String
  snapshots : Snapshots
  bindings : List String
  published : List (String × String × Val)
  notices : List String
  acked : List Nat
  logs : List (LogLevel × String)

/-- apscheduler add_job keyed by id: raises ConflictingIdError when an
entry with that id already exists, otherwise adds the entry. -/
def scheduler_add_job (sched : List String) (id : String) :
    Except String (List String) :=
  if id ∈ sched then Except.error "ConflictingIdError"
  else Except.ok (sched ++ [id])

/-- apscheduler remove_job: raises JobLookupError when no entry with the
id exists. -/
def scheduler_remove_job (sched : List String) (id : String) :
    Except String (List String) :=
  if id ∈ sched then Except.ok (sched.filter (fun j => j != id))
  else Except.error "JobLookupError"

/-- remove_job wrapped in the try/except JobLookupError of _delete_job:
a job that already ran or never existed is silently left alone. -/
def scheduler_remove_silent (sched : List String) (id : String) :
    List String :=
  match scheduler_remove_job sched id with
  | Except.ok sc => sc
  | Except.error _ => sched

/-- ReplicationService._schedule_job: add the job to the background
scheduler; a ConflictingIdError is caught and logged as a warning. -/
def schedule_job (s : RepState) (job_id : String) : RepState :=
  match scheduler_add_job s.scheduler job_id with
  | Except.ok sched' => { s with scheduler := sched' }
  | Except.error _ =>
      { s with logs := s.logs ++
          [(LogLevel.warning,
            "Replication job already running. Received multiple listener messages.")] }

/-- ReplicationService._remove_job_config: os.remove of the job file in
a try/except that swallows every failure, including a None path. -/
def remove_job_config (fs : Snapshots) (job_file : Option String) :
    Snapshots :=
  match job_file with
  | some p => remove_file fs p
  | none => fs

/-- ReplicationService._delete_job: when the id is queued, remove the
scheduler entry if one exists, log, drop the job from the table, unbind
its listener queue and delete its snapshot; otherwise only log a
warning. -/
def delete_job (s : RepState) (job_id : String) : RepState :=
  match lookupKey s.jobs job_id with
  | some job =>
      { s with
        scheduler := scheduler_remove_silent s.scheduler job_id,
        logs := s.logs ++ [(LogLevel.info, "Deleting job.")],
        jobs := removeKey s.jobs job_id,
        bindings := s.bindings.filter (fun b => b != job_id),
        snapshots := remove_job_config s.snapshots job.job_file }
  | none =>
      { s with logs := s.logs ++
          [(LogLevel.warning, "Job deletion failed, job is not queued.")] }

/-- ReplicationService._get_status_message: the result document, with
the full payload on success and only id and status otherwise. -/
def get_status_message (job : RepJob) : Val :=
  if job.status = SUCCESS then
    Val.vObj [("replication_result", Val.vObj
      [("id", Val.vStr job.id),
       ("cloud_image_name", Val.vStr job.cloud_image_name),
       ("source_regions", job.source_regions_result),
       ("status", Val.vStr job.status)])]
  else
    Val.vObj [("replication_result", Val.vObj
      [("id", Val.vStr job.id), ("status", Val.vStr job.status)])]

/-- ReplicationService._publish_message: publish the status message for
the job to the publisher exchange; an AMQPError would only be logged, so
publishing is recorded unconditionally. -/
def publish_message (s : RepState) (job : RepJob) : RepState :=
  { s with published := s.published ++
      [("publisher", job.id, get_status_message job)] }

/-- Completion event delivered by the background scheduler:
EVENT_JOB_EXECUTED carries no exception, EVENT_JOB_ERROR carries the
raised exception. -/
structure SchedulerEvent where
  job_id : String
  exception : Option String

/-- ReplicationService._process_replication_result, the completion
callback: fetch the job (KeyError when the id is unknown), delete
non-recurring jobs, map an execution exception to EXCEPTION status on
the shared job object, log the pass outcome, publish the result unless a
recurring pass ended without success, and acknowledge the listener
message (an unset listener message would raise AttributeError). -/
def process_replication_result (s : RepState) (ev : SchedulerEvent) :
    Except String RepState :=
  match lookupKey s.jobs ev.job_id with
  | none => Except.error "KeyError"
  | some job =>
      let s1 := if job.utctime ≠ "always" then delete_job s ev.job_id else s
      let step :=
        match ev.exception with
        | some exc =>
            let j := { job with status := EXCEPTION }
            (j, { s1 with
                  jobs := if job.utctime ≠ "always" then s1.jobs
                    else setKey s1.jobs ev.job_id j,
                  logs := s1.logs ++
                    [(LogLevel.error,
                      "Pass[" ++ toString job.iteration_count ++
                        "]: Exception replicating image: " ++ exc)] })
        | none =>
            if job.status = SUCCESS then
              (job, { s1 with logs := s1.logs ++
                [(LogLevel.info,
                  "Pass[" ++ toString job.iteration_count ++
                    "]: Publishing successful.")] })
            else
              (job, { s1 with logs := s1.logs ++
                [(LogLevel.error,
                  "Pass[" ++ toString job.iteration_count ++
                    "]: Error occurred replicating image.")] })
      let job' := step.1
      let s3 := if job'.utctime ≠ "always" ∨ job'.status = SUCCESS
        then publish_message step.2 job' else step.2
      match job'.listener_msg with
      | some m => Except.ok { s3 with acked := s3.acked ++ [m] }
      | none => Except.error "AttributeError"

/-- An inbound service-queue message: the raw body together with the
outcome of json.loads on it. Parsing is external library work, so the
parse outcome travels with the message; none models a ValueError, and a
job document parses to a top-level object. -/
structure AmqpMessage where
  body : String
  parsed : Option (List (String × Val))
  msg_id : Nat

/-- Modelled from the spec: notify_invalid_config of the base service is
not under src. Per the spec a validation failure publishes a structured
invalid-config notice carrying the original message body back to the
originating exchange. -/
def notify_invalid_config (s : RepState) (body : String) : RepState :=
  { s with notices := s.notices ++ [body] }

/-- ReplicationService._validate_job_config: every required attribute
must be present in the job document. The per-attribute error log line is
elided; only the verdict is modelled. -/
def validate_job_config (cfg : List (String × Val)) : Bool :=
  ["id", "image_description", "provider", "utctime",
   "source_regions"].all (fun k => (lookupKey cfg k).isSome)

/-- Modelled from the spec: the EC2ReplicationJob constructor is not
under src (replication/ec2_job.py is absent). Per the spec a Job is
created from a validated job document capturing id and utctime, with
iteration count 0 and no credentials; a malformed document makes the
constructor raise. -/
def mkEC2ReplicationJob (cfg : JobConfig) : Except String RepJob :=
  match lookupKey cfg "id", lookupKey cfg "utctime" with
  | some (Val.vStr i), some (Val.vStr ut) =>
      Except.ok
        { id := i, utctime := ut, status := UNKOWN, iteration_count := 0,
          job_file := match lookupKey cfg "job_file" with
            | some (Val.vStr p) => some p
            | _ => none,
          credentials := none, listener_msg := none,
          cloud_image_name := "", source_regions_result := Val.vNull }
  | _, _ => Except.error "MashReplicationException"

/-- ReplicationService._create_job: construct the job (construction
failure is logged and swallowed), add it to the job table, persist the
config when it carries no job_file yet, bind the listener queue and log.
A failure of the persist step itself propagates. -/
def create_job (s : RepState) (cfg : JobConfig) : Except String RepState :=
  match mkEC2ReplicationJob cfg with
  | Except.error e =>
      Except.ok { s with logs := s.logs ++
        [(LogLevel.error, "Invalid job configuration: " ++ e)] }
  | Except.ok job =>
      if (lookupKey cfg "job_file").isSome then
        Except.ok { s with
          jobs := setKey s.jobs job.id job,
          bindings := s.bindings ++ [job.id],
          logs := s.logs ++
            [(LogLevel.info, "Job queued, awaiting testing result.")] }
      else
        match persist_job_config s.job_directory s.snapshots cfg with
        | Except.error e => Except.error e
        | Except.ok (fs', _, path) =>
            Except.ok { s with
              jobs := setKey s.jobs job.id { job with job_file := some path },
              snapshots := fs',
              bindings := s.bindings ++ [job.id],
              logs := s.logs ++
                [(LogLevel.info, "Job queued, awaiting testing result.")] }

/-- ReplicationService._add_job: warn on an already queued id, create an
EC2 job for the EC2 provider, and log an unsupported provider. Indexing
a document without id or provider raises KeyError; a non-string id is
not modelled (job ids are strings throughout the system). -/
def add_job (s : RepState) (cfg : JobConfig) : Except String RepState :=
  match lookupKey cfg "id", lookupKey cfg "provider" with
  | some (Val.vStr job_id), some providerv =>
      if (lookupKey s.jobs job_id).isSome then
        Except.ok { s with logs := s.logs ++
          [(LogLevel.warning, "Job already queued.")] }
      else
        match providerv with
        | Val.vStr "EC2" => create_job s cfg
        | _ =>
            Except.ok { s with logs := s.logs ++
              [(LogLevel.error, "Provider is not supported.")] }
  | _, _ => Except.error "KeyError"

/-- ReplicationService._handle_service_message: a body that fails
json.loads or lacks the replication_job key or fails validation is
logged and answered with an invalid-config notice; a valid document goes
to _add_job; the message is acknowledged at the end in every caught
branch. A replication_job value that is not an object would raise in the
membership test of _validate_job_config. -/
def handle_service_message (s : RepState) (m : AmqpMessage) :
    Except String RepState :=
  match m.parsed with
  | none =>
      let s1 := { s with logs := s.logs ++
        [(LogLevel.error, "Invalid job config file.")] }
      let s2 := notify_invalid_config s1 m.body
      Except.ok { s2 with acked := s2.acked ++ [m.msg_id] }
  | some job_desc =>
      match lookupKey job_desc "replication_job" with
      | some (Val.vObj rj) =>
          if validate_job_config rj = false then
            let s2 := notify_invalid_config s m.body
            Except.ok { s2 with acked := s2.acked ++ [m.msg_id] }
          else
            match add_job s rj with
            | Except.ok s2 =>
                Except.ok { s2 with acked := s2.acked ++ [m.msg_id] }
            | Except.error e => Except.error e
      | some _ => Except.error "TypeError"
      | none =>
          let s1 := { s with logs := s.logs ++
            [(LogLevel.error,
              "Invalid replication job: Job document must contain the replication_job key.")] }
          let s2 := notify_invalid_config s1 m.body
          Except.ok { s2 with acked := s2.acked ++ [m.msg_id] }

/-- An inbound credentials-response message. The json.loads and
decode_credentials steps are external library and base-service work not
under src; the decoded payload fields travel with the message. -/
structure CredMessage where
  payload_id : String
  payload_credentials : Val
  msg_id : Nat

/-- ReplicationService._handle_credentials_response: jobs.get on the
payload id, then an attribute assignment on the result; when the id is
not queued the result is None and the assignment raises AttributeError
before the acknowledgment is reached. Otherwise the credentials are set,
the job is scheduled and the message is acknowledged. -/
def handle_credentials_response (s : RepState) (m : CredMessage) :
    Except String RepState :=
  match lookupKey s.jobs m.payload_id with
  | none => Except.error "AttributeError"
  | some job =>
      let job' := { job with credentials := some m.payload_credentials }
      let s1 := { s with jobs := setKey s.jobs m.payload_id job' }
      let s2 := schedule_job s1 job'.id
      Except.ok { s2 with acked := s2.acked ++ [m.msg_id] }

/-- Helper: n Azure execution passes advance iteration_count by n. -/
theorem azure_run_passes_count (n : Nat) (j : DeprecationJob) :
    (azure_run_passes n j).iteration_count = j.iteration_count + n := by
  induction n generalizing j with
  | zero => simp [azure_run_passes]
  | succ n ih =>
      rw [azure_run_passes, ih]
      simp [deprecate_image, azure_deprecate]
      omega

/-- C1: _should_notify returns true exactly when the notification email
is truthy and (status is not success, or the type is periodic and the
job is not recurring, or this is the terminal service and the job is not
recurring); in particular it is false for a missing or empty email and
true for a set email with failed status. -/
theorem should_notify_spec (ex : String) (email : Option String)
    (ty ut st ls e : String) :
    (should_notify ex email ty ut st ls = true ↔
      (pyTruthy email = true ∧
        (st ≠ SUCCESS ∨ (ty = "periodic" ∧ ut ≠ "always") ∨
          (ls = ex ∧ ut ≠ "always")))) ∧
    should_notify ex none ty ut st ls = false ∧
    should_notify ex (some e) ty ut FAILED ls = (e != "") := by
  refine ⟨?_, ?_, ?_⟩
  · unfold should_notify
    by_cases h1 : pyTruthy email = false <;>
      by_cases h2 : st = SUCCESS <;>
        by_cases h3 : ty = "periodic" <;>
          by_cases h4 : ut = "always" <;>
            by_cases h5 : ls = ex <;>
              simp_all
  · simp [should_notify, pyTruthy]
  · by_cases he : e = ""
    · simp [should_notify, pyTruthy, he]
    · have hfs : FAILED ≠ SUCCESS := by decide
      simp [should_notify, pyTruthy, he, hfs]

/-- C8: the snapshot removal operation never raises, tolerates a missing
file as success, and calling it twice on a path equals calling it
once. -/
theorem remove_file_idempotent (fs : Snapshots) (p : String) :
    remove_file fs p = removeKey fs p ∧
    (lookupKey fs p = none → remove_file fs p = fs) ∧
    remove_file (remove_file fs p) p = remove_file fs p := by
  refine ⟨remove_file_eq_removeKey fs p, ?_, ?_⟩
  · intro h
    rw [remove_file_eq_removeKey, removeKey_of_lookup_none fs p h]
  · rw [remove_file_eq_removeKey, remove_file_eq_removeKey]
    exact removeKey_of_lookup_none _ _ (lookupKey_removeKey_self fs p)

/-- C9: persist_job_config sets the job_file key on the callers dict to
the job directory followed by job-(id).json before serializing, the
snapshot written to disk contains that job_file value, and the returned
path equals the stored job_file value. -/
theorem persist_job_config_spec (dir : String) (fs : Snapshots)
    (config : JobConfig) (i : String)
    (h : lookupKey config "id" = some (Val.vStr i)) :
    persist_job_config dir fs config =
      Except.ok (setKey fs (job_file_path dir i)
          (setKey config "job_file" (Val.vStr (job_file_path dir i))),
        setKey config "job_file" (Val.vStr (job_file_path dir i)),
        job_file_path dir i) ∧
    lookupKey (setKey config "job_file" (Val.vStr (job_file_path dir i)))
        "job_file" = some (Val.vStr (job_file_path dir i)) ∧
    lookupKey (setKey fs (job_file_path dir i)
          (setKey config "job_file" (Val.vStr (job_file_path dir i))))
        (job_file_path dir i) =
      some (setKey config "job_file" (Val.vStr (job_file_path dir i))) := by
  refine ⟨?_, lookupKey_setKey_self _ _ _, lookupKey_setKey_self _ _ _⟩
  simp [persist_job_config, h, job_file_path, strOfVal]

/-- Witness for C9 at a concrete config. -/
theorem persist_job_config_spec_witness :
    persist_job_config "tmp-dir/" [] [("id", Val.vStr "1")] =
      Except.ok ([("tmp-dir/job-1.json",
          [("id", Val.vStr "1"),
           ("job_file", Val.vStr "tmp-dir/job-1.json")])],
        [("id", Val.vStr "1"),
         ("job_file", Val.vStr "tmp-dir/job-1.json")],
        "tmp-dir/job-1.json") :=
  (persist_job_config_spec "tmp-dir/" [] [("id", Val.vStr "1")] "1" rfl).1

/-- C2: persisting a job config into an empty snapshot directory and
replaying the directory through restart_jobs invokes the creation
callback exactly once, with a config that agrees with the original on
every key other than job_file; replaying an empty directory invokes the
callback zero times. -/
theorem persist_restart_roundtrip (dir i : String) (config : JobConfig)
    (h : lookupKey config "id" = some (Val.vStr i)) :
    (∀ {σ : Type} (cb : JobConfig → σ → σ) (st : σ),
      restart_jobs cb ([] : Snapshots) st = st) ∧
    persist_job_config dir [] config =
      Except.ok ([(job_file_path dir i,
          setKey config "job_file" (Val.vStr (job_file_path dir i)))],
        setKey config "job_file" (Val.vStr (job_file_path dir i)),
        job_file_path dir i) ∧
    restart_jobs (fun c acc => acc ++ [c])
        [(job_file_path dir i,
          setKey config "job_file" (Val.vStr (job_file_path dir i)))]
        ([] : List JobConfig) =
      [setKey config "job_file" (Val.vStr (job_file_path dir i))] ∧
    ∀ k, k ≠ "job_file" →
      lookupKey (setKey config "job_file" (Val.vStr (job_file_path dir i))) k =
        lookupKey config k := by
  refine ⟨fun cb st => rfl, ?_, rfl, fun k hk => lookupKey_setKey_ne _ _ _ _ hk⟩
  simp [persist_job_config, h, job_file_path, strOfVal, setKey]

/-- Sample job document for the round-trip witness. -/
def sampleConfig : JobConfig :=
  [("id", Val.vStr "42"), ("provider", Val.vStr "EC2"),
   ("utctime", Val.vStr "now")]

/-- Witness for C2 at a concrete config. -/
theorem persist_restart_roundtrip_witness :
    restart_jobs (fun c acc => acc ++ [c]) ([] : Snapshots)
        ([] : List JobConfig) = [] ∧
    persist_job_config "dir/" [] sampleConfig =
      Except.ok ([(job_file_path "dir/" "42",
          setKey sampleConfig "job_file" (Val.vStr (job_file_path "dir/" "42")))],
        setKey sampleConfig "job_file" (Val.vStr (job_file_path "dir/" "42")),
        job_file_path "dir/" "42") ∧
    restart_jobs (fun c acc => acc ++ [c])
        [(job_file_path "dir/" "42",
          setKey sampleConfig "job_file" (Val.vStr (job_file_path "dir/" "42")))]
        ([] : List JobConfig) =
      [setKey sampleConfig "job_file" (Val.vStr (job_file_path "dir/" "42"))] ∧
    lookupKey (setKey sampleConfig "job_file"
        (Val.vStr (job_file_path "dir/" "42"))) "utctime" =
      lookupKey sampleConfig "utctime" :=
  ⟨(persist_restart_roundtrip "dir/" "42" sampleConfig rfl).1 _ _,
   (persist_restart_roundtrip "dir/" "42" sampleConfig rfl).2.1,
   (persist_restart_roundtrip "dir/" "42" sampleConfig rfl).2.2.1,
   (persist_restart_roundtrip "dir/" "42" sampleConfig rfl).2.2.2 "utctime"
     (by decide)⟩

/-- C3: admitting a job id that is already scheduled raises
ConflictingIdError inside add_job, which _schedule_job catches: the
caller sees a normal return, a warning is logged, and the state,
including the existing scheduler entry, is otherwise unchanged. -/
theorem schedule_job_conflicting_id (s : RepState) (jid : String)
    (h : jid ∈ s.scheduler) :
    scheduler_add_job s.scheduler jid = Except.error "ConflictingIdError" ∧
    schedule_job s jid =
      { s with logs := s.logs ++
          [(LogLevel.warning,
            "Replication job already running. Received multiple listener messages.")] } := by
  have ha : scheduler_add_job s.scheduler jid =
      Except.error "ConflictingIdError" := by
    simp [scheduler_add_job, h]
  exact ⟨ha, by simp [schedule_job, ha]⟩

/-- Sample state for the C3 witness: the scheduler already holds an
entry for job id 1. -/
def sampleStateC3 : RepState :=
  { job_directory := "dir/", jobs := [], scheduler := ["1"],
    snapshots := [], bindings := [], published := [], notices := [],
    acked := [], logs := [] }

/-- Witness for C3 at a concrete state. -/
theorem schedule_job_conflicting_id_witness :
    scheduler_add_job sampleStateC3.scheduler "1" =
      Except.error "ConflictingIdError" ∧
    schedule_job sampleStateC3 "1" =
      { sampleStateC3 with logs := sampleStateC3.logs ++
          [(LogLevel.warning,
            "Replication job already running. Received multiple listener messages.")] } :=
  schedule_job_conflicting_id sampleStateC3 "1" (by simp [sampleStateC3])

/-- C4: iteration_count is 0 at construction, each invocation of the
execution entry point deprecate_image increments it by exactly one, both
for the base class (whose provider logic raises) and for the Azure
override, after n completed Azure passes it equals n, and no other job
operation changes it. -/
theorem iteration_count_spec (id provider utctime : String)
    (jf : Option String) (j : DeprecationJob) (n : Nat) :
    (DeprecationJob.init id provider utctime jf).iteration_count = 0 ∧
    (deprecate_image azure_deprecate j).1.iteration_count =
      j.iteration_count + 1 ∧
    (deprecate_image base_deprecate j).1.iteration_count =
      j.iteration_count + 1 ∧
    (set_log_callback j).iteration_count = j.iteration_count ∧
    (azure_run_passes n (DeprecationJob.init id provider utctime jf)).iteration_count = n := by
  refine ⟨rfl, rfl, rfl, rfl, ?_⟩
  rw [azure_run_passes_count]
  simp [DeprecationJob.init]

/-- C10: the credentials handler raises AttributeError before reaching
the acknowledgment when the decoded payload id is not in the job table;
when the id is queued, the credentials are stored on the job, the job is
scheduled (unless already scheduled) and the message is acknowledged. -/
theorem credentials_response_unknown_id_raises (s : RepState)
    (m : CredMessage) :
    (lookupKey s.jobs m.payload_id = none →
      handle_credentials_response s m = Except.error "AttributeError") ∧
    (∀ job, lookupKey s.jobs m.payload_id = some job →
      Except.map
          (fun t => (lookupKey t.jobs m.payload_id, t.acked, t.scheduler))
          (handle_credentials_response s m) =
        Except.ok
          (some { job with credentials := some m.payload_credentials },
            s.acked ++ [m.msg_id],
            if job.id ∈ s.scheduler then s.scheduler
            else s.scheduler ++ [job.id])) := by
  constructor
  · intro h
    simp [handle_credentials_response, h]
  · intro job h
    by_cases hs : job.id ∈ s.scheduler
    · simp [handle_credentials_response, h, schedule_job, scheduler_add_job,
        hs, lookupKey_setKey_self, Except.map]
    · simp [handle_credentials_response, h, schedule_job, scheduler_add_job,
        hs, lookupKey_setKey_self, Except.map]

/-- Empty replication service state, used by concrete instantiations. -/
def emptyRepState : RepState :=
  { job_directory := "dir/", jobs := [], scheduler := [], snapshots := [],
    bindings := [], published := [], notices := [], acked := [], logs := [] }

/-- Witness for C10: with an empty job table the handler raises before
acknowledging. -/
theorem credentials_response_unknown_id_raises_witness :
    handle_credentials_response emptyRepState
        { payload_id := "9", payload_credentials := Val.vObj [],
          msg_id := 4 } =
      Except.error "AttributeError" :=
  (credentials_response_unknown_id_raises emptyRepState
    { payload_id := "9", payload_credentials := Val.vObj [], msg_id := 4 }).1
    rfl

/-- C7: an inbound job-document message that fails JSON parsing, lacks
the replication_job key, or misses a required field creates no job,
writes no snapshot, creates no scheduler entry, publishes an
invalid-config notice with the original body, and is still
acknowledged. -/
theorem handle_service_message_invalid (s : RepState) (m : AmqpMessage) :
    (m.parsed = none →
      Except.map
          (fun t => (t.jobs, t.snapshots, t.scheduler, t.notices, t.acked))
          (handle_service_message s m) =
        Except.ok (s.jobs, s.snapshots, s.scheduler,
          s.notices ++ [m.body], s.acked ++ [m.msg_id])) ∧
    (∀ d, m.parsed = some d → lookupKey d "replication_job" = none →
      Except.map
          (fun t => (t.jobs, t.snapshots, t.scheduler, t.notices, t.acked))
          (handle_service_message s m) =
        Except.ok (s.jobs, s.snapshots, s.scheduler,
          s.notices ++ [m.body], s.acked ++ [m.msg_id])) ∧
    (∀ d rj, m.parsed = some d →
      lookupKey d "replication_job" = some (Val.vObj rj) →
      validate_job_config rj = false →
      Except.map
          (fun t => (t.jobs, t.snapshots, t.scheduler, t.notices, t.acked))
          (handle_service_message s m) =
        Except.ok (s.jobs, s.snapshots, s.scheduler,
          s.notices ++ [m.body], s.acked ++ [m.msg_id])) := by
  refine ⟨?_, ?_, ?_⟩
  · intro h
    simp [handle_service_message, h, notify_invalid_config, Except.map]
  · intro d hd hrj
    simp [handle_service_message, hd, hrj, notify_invalid_config, Except.map]
  · intro d rj hd hrj hv
    simp [handle_service_message, hd, hrj, hv, notify_invalid_config, Except.map]

/-- Witness for C7: a body that is not valid JSON. -/
theorem handle_service_message_invalid_witness :
    Except.map
        (fun t => (t.jobs, t.snapshots, t.scheduler, t.notices, t.acked))
        (handle_service_message emptyRepState
          { body := "bad json", parsed := none, msg_id := 3 }) =
      Except.ok (emptyRepState.jobs, emptyRepState.snapshots,
        emptyRepState.scheduler, emptyRepState.notices ++ ["bad json"],
        emptyRepState.acked ++ [3]) :=
  (handle_service_message_invalid emptyRepState
    { body := "bad json", parsed := none, msg_id := 3 }).1 rfl

/-- Helper: the exception status differs from the success status. -/
theorem exception_ne_success : EXCEPTION ≠ SUCCESS := by decide

/-- C5 (amended): when an execution pass ends with an uncaught
exception, the completion callback sets the job status to EXCEPTION,
logs an error carrying the iteration count, acknowledges the listener
message and returns normally; the result is published on the normal
path only for a non-recurring job, while a recurring job keeps its
table entry and snapshot and publishes nothing for the failed pass. -/
theorem process_replication_result_exception (s : RepState)
    (jid exc : String) (job : RepJob) (m : Nat)
    (hj : lookupKey s.jobs jid = some job)
    (hm : job.listener_msg = some m) :
    process_replication_result s { job_id := jid, exception := some exc } =
      Except.ok
        (if job.utctime = "always" then
          { s with
            jobs := setKey s.jobs jid { job with status := EXCEPTION },
            logs := s.logs ++
              [(LogLevel.error,
                "Pass[" ++ toString job.iteration_count ++
                  "]: Exception replicating image: " ++ exc)],
            acked := s.acked ++ [m] }
        else
          { s with
            scheduler := scheduler_remove_silent s.scheduler jid,
            jobs := removeKey s.jobs jid,
            bindings := s.bindings.filter (fun b => b != jid),
            snapshots := remove_job_config s.snapshots job.job_file,
            logs := s.logs ++
              [(LogLevel.info, "Deleting job."),
               (LogLevel.error,
                "Pass[" ++ toString job.iteration_count ++
                  "]: Exception replicating image: " ++ exc)],
            published := s.published ++
              [("publisher", job.id,
                get_status_message { job with status := EXCEPTION })],
            acked := s.acked ++ [m] }) := by
  by_cases hu : job.utctime = "always"
  · simp [process_replication_result, hj, hu, hm, publish_message,
      delete_job, exception_ne_success, List.append_assoc]
  · simp [process_replication_result, hj, hu, hm, publish_message,
      delete_job, exception_ne_success, List.append_assoc]

/-- Recurring replication job for the C5 counterexample. -/
def exJobC5 : RepJob :=
  { id := "1", utctime := "always", status := UNKOWN, iteration_count := 2,
    job_file := some "dir/job-1.json", credentials := some (Val.vObj []),
    listener_msg := some 7, cloud_image_name := "img",
    source_regions_result := Val.vNull }

/-- Service state holding the recurring job of the C5 counterexample. -/
def exStateC5 : RepState :=
  { job_directory := "dir/", jobs := [("1", exJobC5)], scheduler := [],
    snapshots := [("dir/job-1.json", [("id", Val.vStr "1")])],
    bindings := ["1"], published := [], notices := [], acked := [],
    logs := [] }

/-- Counterexample to C5 as stated: an exception pass of a recurring
(utctime always) job returns normally with the status set to EXCEPTION
and the message acknowledged, but nothing is published on the result
path, against the claim that the result is still published. -/
theorem replication_exception_nonstop_not_published :
    Except.map
        (fun t => (t.published, t.acked,
          (lookupKey t.jobs "1").map RepJob.status))
        (process_replication_result exStateC5
          { job_id := "1", exception := some "boom" }) =
      Except.ok ([], [7], some EXCEPTION) := rfl

/-- Non-recurring replication job for the C5 witness. -/
def exJobC5w : RepJob :=
  { id := "3", utctime := "now", status := UNKOWN, iteration_count := 1,
    job_file := some "dir/job-3.json", credentials := some (Val.vObj []),
    listener_msg := some 11, cloud_image_name := "img3",
    source_regions_result := Val.vNull }

/-- Service state holding the non-recurring job of the C5 witness. -/
def exStateC5w : RepState :=
  { job_directory := "dir/", jobs := [("3", exJobC5w)], scheduler := ["3"],
    snapshots := [("dir/job-3.json", [("id", Val.vStr "3")])],
    bindings := ["3"], published := [], notices := [], acked := [],
    logs := [] }

/-- Witness for the amended C5 at a concrete non-recurring job. -/
theorem process_replication_result_exception_witness :
    process_replication_result exStateC5w
        { job_id := "3", exception := some "boom" } =
      Except.ok
        (if exJobC5w.utctime = "always" then
          { exStateC5w with
            jobs := setKey exStateC5w.jobs "3"
              { exJobC5w with status := EXCEPTION },
            logs := exStateC5w.logs ++
              [(LogLevel.error,
                "Pass[" ++ toString exJobC5w.iteration_count ++
                  "]: Exception replicating image: " ++ "boom")],
            acked := exStateC5w.acked ++ [11] }
        else
          { exStateC5w with
            scheduler := scheduler_remove_silent exStateC5w.scheduler "3",
            jobs := removeKey exStateC5w.jobs "3",
            bindings := exStateC5w.bindings.filter (fun b => b != "3"),
            snapshots := remove_job_config exStateC5w.snapshots
              exJobC5w.job_file,
            logs := exStateC5w.logs ++
              [(LogLevel.info, "Deleting job."),
               (LogLevel.error,
                "Pass[" ++ toString exJobC5w.iteration_count ++
                  "]: Exception replicating image: " ++ "boom")],
            published := exStateC5w.published ++
              [("publisher", exJobC5w.id,
                get_status_message { exJobC5w with status := EXCEPTION })],
            acked := exStateC5w.acked ++ [11] }) :=
  process_replication_result_exception exStateC5w "3" "boom" exJobC5w 11
    rfl rfl

/-- C6: the completion callback never removes a recurring (utctime
always) job from the table or its snapshot from disk, whatever the pass
outcome; a non-recurring job is deleted from the table on completion;
and the explicit _delete_job is what removes a queued job and its
snapshot. -/
theorem nonstop_never_deleted (s : RepState) (jid : String)
    (exc : Option String) (job : RepJob) (m : Nat)
    (hj : lookupKey s.jobs jid = some job)
    (hm : job.listener_msg = some m) :
    (job.utctime = "always" →
      Except.map (fun t => ((lookupKey t.jobs jid).isSome, t.snapshots))
          (process_replication_result s { job_id := jid, exception := exc }) =
        Except.ok (true, s.snapshots)) ∧
    (job.utctime ≠ "always" →
      Except.map (fun t => lookupKey t.jobs jid)
          (process_replication_result s { job_id := jid, exception := exc }) =
        Except.ok none) ∧
    lookupKey (delete_job s jid).jobs jid = none ∧
    (delete_job s jid).snapshots =
      remove_job_config s.snapshots job.job_file := by
  refine ⟨?_, ?_, ?_, ?_⟩
  · intro hu
    cases exc with
    | some e =>
        simp [process_replication_result, hj, hu, hm, publish_message,
          Except.map, exception_ne_success, lookupKey_setKey_self]
    | none =>
        by_cases hs : job.status = SUCCESS <;>
          simp [process_replication_result, hj, hu, hm, hs,
            publish_message, Except.map]
  · intro hu
    cases exc with
    | some e =>
        simp [process_replication_result, hj, hu, hm, delete_job,
          publish_message, Except.map, lookupKey_removeKey_self]
    | none =>
        by_cases hs : job.status = SUCCESS <;>
          simp [process_replication_result, hj, hu, hm, hs, delete_job,
            publish_message, Except.map, lookupKey_removeKey_self]
  · simp [delete_job, hj, lookupKey_removeKey_self]
  · simp [delete_job, hj]

/-- Recurring replication job for the C6 witness, with a successful
pass. -/
def exJobC6 : RepJob :=
  { id := "2", utctime := "always", status := SUCCESS,
    iteration_count := 3, job_file := some "dir/job-2.json",
    credentials := some (Val.vObj []), listener_msg := some 9,
    cloud_image_name := "img2", source_regions_result := Val.vNull }

/-- Service state holding the recurring job of the C6 witness. -/
def exStateC6 : RepState :=
  { job_directory := "dir/", jobs := [("2", exJobC6)], scheduler := [],
    snapshots := [("dir/job-2.json", [("id", Val.vStr "2")])],
    bindings := ["2"], published := [], notices := [], acked := [],
    logs := [] }

/-- Witness for C6: a successful pass of a concrete recurring job leaves
the job table entry and the snapshot in place. -/
theorem nonstop_never_deleted_witness :
    Except.map (fun t => ((lookupKey t.jobs "2").isSome, t.snapshots))
        (process_replication_result exStateC6
          { job_id := "2", exception := none }) =
      Except.ok (true, exStateC6.snapshots) :=
  (nonstop_never_deleted exStateC6 "2" none exJobC6 9 rfl rfl).1 rfl

end Mash
